import Mathlib

/-!
Shallow embedding of `src/hello_world.py`: an Airflow DAG of five task
functions — extract_data, transform_data, validate_data, load_data,
send_notification — wired linearly at the bottom of the file.

Python dictionaries with a fixed key set become Lean structures; Python
lists become `List`; the `datetime.now().isoformat()` timestamps are passed
in as an explicit `now : String` parameter (the code never branches on
them); the one fallible operation (`email.split('@')[1]`, which raises
IndexError when the email has no `'@'`) is modelled with `Option`.
-/

namespace EtlDag

/-- A raw user record, `{'id': ..., 'name': ..., 'email': ...}` (lines 32-34).
Python ints are modelled as `Int`. -/
structure RawUser where
  id : Int
  name : String
  email : String
deriving Repr, DecidableEq

/-- The extract output `{'users': [...]}` (lines 30-36). -/
structure RawData where
  users : List RawUser
deriving Repr, DecidableEq

/-- `extract_data` (lines 25-38): returns the fixed three-user sample set. -/
def extract_data : RawData :=
  { users :=
      [ { id := 1, name := "Alice", email := "alice@example.com" },
        { id := 2, name := "Bob", email := "bob@example.com" },
        { id := 3, name := "Charlie", email := "charlie@example.com" } ] }

/-- Python `str.split(sep)` for a one-character separator, on the character
list: `splitChar '@' "a@b@c".toList = [['a'],['b'],['c']]` and a string
without the separator yields a one-element list, exactly as in Python. -/
def splitChar (sep : Char) : List Char → List (List Char)
  | [] => [[]]
  | c :: cs =>
    if c = sep then [] :: splitChar sep cs
    else
      match splitChar sep cs with
      | [] => [[c]]
      | r :: rs => (c :: r) :: rs

/-- Python `s.split(sep)` for a one-character separator, on `String`. -/
def pySplit (sep : Char) (s : String) : List String :=
  (splitChar sep s.toList).map (fun cs => String.mk cs)

/-- Python `str.upper()` (ASCII case mapping, as all names here are ASCII):
uppercase every character. -/
def pyUpper (s : String) : String :=
  String.mk (s.toList.map Char.toUpper)

/-- A transformed user record (lines 47-52).  `processed_at` holds the
timestamp string produced by `datetime.now().isoformat()`. -/
structure TransformedUser where
  user_id : Int
  full_name : String
  email_domain : String
  processed_at : String
deriving Repr, DecidableEq

/-- The transform output `{'transformed_users': [...]}` (line 55). -/
structure TransformedData where
  transformed_users : List TransformedUser
deriving Repr, DecidableEq

/-- The dictionary built for one user in the transform loop (lines 47-52):
uppercased name, `email.split('@')[1]` as domain.  `none` models the
IndexError raised when the split has no second element. -/
def transform_user (now : String) (user : RawUser) : Option TransformedUser :=
  match (pySplit '@' user.email)[1]? with
  | none => none
  | some d =>
    some { user_id := user.id, full_name := pyUpper user.name,
           email_domain := d, processed_at := now }

/-- The transform loop over `raw_data['users']` (lines 45-53); the first
IndexError aborts the whole task, hence `none` propagates. -/
def transform_users (now : String) : List RawUser → Option (List TransformedUser)
  | [] => some []
  | user :: rest =>
    match transform_user now user with
    | none => none
    | some t =>
      match transform_users now rest with
      | none => none
      | some ts => some (t :: ts)

/-- `transform_data` (lines 40-57). -/
def transform_data (now : String) (raw_data : RawData) : Option TransformedData :=
  match transform_users now raw_data.users with
  | none => none
  | some ts => some { transformed_users := ts }

/-- The validation-results dictionary (lines 67-72). -/
structure ValidationResults where
  total_records : Nat
  valid_records : Nat
  invalid_records : Nat
  validation_errors : List String
deriving Repr, DecidableEq

/-- Python `repr` of a transformed-user dict, as interpolated into the
f-string on line 80 (keys in insertion order, single-quoted strings). -/
def tuRepr (user : TransformedUser) : String :=
  "\x7b\x27user_id\x27: " ++ toString user.user_id ++
  ", \x27full_name\x27: \x27" ++ user.full_name ++
  "\x27, \x27email_domain\x27: \x27" ++ user.email_domain ++
  "\x27, \x27processed_at\x27: \x27" ++ user.processed_at ++ "\x27\x7d"

/-- One iteration of the validation loop (lines 74-94).  The transformed
records always carry all four keys, so `user.get(k)` returns the field and
`not user.get(k)` is Python falsiness: `0` for the integer `user_id`, `""`
for the strings. -/
def validate_step (validation_results : ValidationResults)
    (user : TransformedUser) : ValidationResults :=
  let missing_required := user.user_id == 0 || user.full_name == ""
  let missing_domain := user.email_domain == ""
  let errs1 :=
    if missing_required then
      validation_results.validation_errors ++
        ["Missing required fields for user: " ++ tuRepr user]
    else validation_results.validation_errors
  let errs2 :=
    if missing_domain then
      errs1 ++ ["Missing email domain for user: " ++ toString user.user_id]
    else errs1
  let is_valid := !missing_required && !missing_domain
  if is_valid then
    { validation_results with
        validation_errors := errs2,
        valid_records := validation_results.valid_records + 1 }
  else
    { validation_results with
        validation_errors := errs2,
        invalid_records := validation_results.invalid_records + 1 }

/-- `validate_data` (lines 59-99). -/
def validate_data (transformed_data : TransformedData) : ValidationResults :=
  let users := transformed_data.transformed_users
  users.foldl validate_step
    { total_records := users.length, valid_records := 0,
      invalid_records := 0, validation_errors := [] }

/-- The loading-summary dictionary (lines 114-118). -/
structure LoadingSummary where
  records_processed : Nat
  load_timestamp : String
  status : String
deriving Repr, DecidableEq

/-- The warning log lines load_data emits (lines 106-109) — its only use of
`validation_results`. -/
def load_warnings (validation_results : ValidationResults) : List String :=
  if validation_results.invalid_records > 0 then
    ("Found " ++ toString validation_results.invalid_records ++ " invalid records")
      :: validation_results.validation_errors.map
          (fun e => "Validation error: " ++ e)
  else []

/-- `load_data` (lines 101-121): logs warnings for invalid records but
unconditionally builds a summary over all transformed users. -/
def load_data (now : String) (transformed_data : TransformedData)
    (validation_results : ValidationResults) : LoadingSummary :=
  let _warnings := load_warnings validation_results
  let users_to_load := transformed_data.transformed_users
  { records_processed := users_to_load.length,
    load_timestamp := now, status := "completed" }

/-- The f-string message of lines 128-137 (exact whitespace of the
triple-quoted literal). -/
def notification_message (loading_summary : LoadingSummary)
    (validation_results : ValidationResults) : String :=
  "\n        ETL Pipeline Completed Successfully!\n        \n        Summary:\n        - Records processed: " ++
  toString loading_summary.records_processed ++
  "\n        - Valid records: " ++ toString validation_results.valid_records ++
  "\n        - Invalid records: " ++ toString validation_results.invalid_records ++
  "\n        - Completion time: " ++ loading_summary.load_timestamp ++
  "\n        - Status: " ++ loading_summary.status ++ "\n        "

/-- `send_notification` (lines 123-142): logs the formatted message and
returns a constant string. -/
def send_notification (loading_summary : LoadingSummary)
    (validation_results : ValidationResults) : String :=
  let _message := notification_message loading_summary validation_results
  "Notification sent successfully"

/-- A positional argument for a call of `send_notification`; the two
parameters have different types, so arguments are tagged. -/
inductive NotifyArg where
  | summary (loading_summary : LoadingSummary)
  | validation (validation_results : ValidationResults)
deriving Repr, DecidableEq

/-- Invoking the Python callable `send_notification` with a list of
positional arguments, as the task runtime does.  The signature (line 124)
has two required parameters `(loading_summary, validation_results)`, so any
other argument pattern raises TypeError, modelled as `none`. -/
def call_send_notification : List NotifyArg → Option String
  | [NotifyArg.summary ls, NotifyArg.validation vr] =>
    some (send_notification ls vr)
  | _ => none

/-- The DAG wiring (lines 145-149): extract → transform → validate →
load(transform, validate) → notify.  Line 149 reads
`send_notification(loading_summary)` — a single positional argument. -/
def dag_run (now : String) : Option String :=
  match transform_data now extract_data with
  | none => none
  | some transformed_data_res =>
    let validate_data_res := validate_data transformed_data_res
    let loading_summary := load_data now transformed_data_res validate_data_res
    call_send_notification [NotifyArg.summary loading_summary]

/-- The loading summary produced by the wired pipeline (line 148), `none`
when transform fails. -/
def dag_loading_summary (now : String) : Option LoadingSummary :=
  match transform_data now extract_data with
  | none => none
  | some transformed_data_res =>
    some (load_data now transformed_data_res
            (validate_data transformed_data_res))

/-- Number of occurrences of a character in a character list. -/
def countChar (c : Char) : List Char → Nat
  | [] => 0
  | a :: rest => (if a = c then 1 else 0) + countChar c rest

/-- Everything after the first occurrence of `c` ( `[]` when `c` is absent). -/
def afterChar (c : Char) : List Char → List Char
  | [] => []
  | a :: rest => if a = c then rest else afterChar c rest

/-- Formalises the specification phrase "the substring of the email after
the '@' character": everything after the first occurrence. -/
def substringAfter (c : Char) (s : String) : String :=
  String.mk (afterChar c s.toList)

/-- `validate_data` with its input object threaded as explicit state through
the loop, so an in-place update of the input would surface as a change in
the returned first component.  The body (lines 59-99) only reads `users`
and writes the freshly created `validation_results`. -/
def validate_data_state (transformed_data : TransformedData) :
    TransformedData × ValidationResults :=
  let users := transformed_data.transformed_users
  users.foldl (fun st user => (st.1, validate_step st.2 user))
    (transformed_data,
      { total_records := users.length, valid_records := 0,
        invalid_records := 0, validation_errors := [] })

/-- `load_data` with its two inputs threaded as state and the emitted log
lines made explicit, translated statement by statement from lines 101-121:
the warning loop reads `validation_results`, the summary reads
`transformed_data`, neither is written. -/
def load_data_state (now : String) (transformed_data : TransformedData)
    (validation_results : ValidationResults) :
    (TransformedData × ValidationResults) × List String × LoadingSummary :=
  let log0 : List String := []
  let log1 :=
    if validation_results.invalid_records > 0 then
      validation_results.validation_errors.foldl
        (fun acc e => acc ++ ["Validation error: " ++ e])
        (log0 ++ ["Found " ++ toString validation_results.invalid_records ++
                  " invalid records"])
    else log0
  let users_to_load := transformed_data.transformed_users
  let loading_summary : LoadingSummary :=
    { records_processed := users_to_load.length,
      load_timestamp := now, status := "completed" }
  ((transformed_data, validation_results), log1, loading_summary)

/-- `send_notification` with its two inputs threaded as state and the logged
message made explicit (lines 123-142): the body reads both inputs to build
`message` and writes neither. -/
def send_notification_state (loading_summary : LoadingSummary)
    (validation_results : ValidationResults) :
    (LoadingSummary × ValidationResults) × String × String :=
  let message := notification_message loading_summary validation_results
  ((loading_summary, validation_results), message,
    "Notification sent successfully")

/-! ### Helper lemmas -/

lemma splitChar_ne_nil (sep : Char) (l : List Char) : splitChar sep l ≠ [] := by
  induction l with
  | nil => simp [splitChar]
  | cons c cs ih =>
    simp only [splitChar]
    split
    · simp
    · split
      · simp
      · simp

lemma getElem?_one_splitChar_eq_none_iff (sep : Char) (l : List Char) :
    (splitChar sep l)[1]? = none ↔ sep ∉ l := by
  induction l with
  | nil => simp [splitChar]
  | cons c cs ih =>
    by_cases hc : c = sep
    · subst hc
      obtain ⟨r, rs, hr⟩ := List.exists_cons_of_ne_nil (splitChar_ne_nil c cs)
      simp [splitChar, hr]
    · obtain ⟨r, rs, hr⟩ := List.exists_cons_of_ne_nil (splitChar_ne_nil sep cs)
      rw [hr] at ih
      have hcs : ¬sep = c := fun h => hc h.symm
      simp only [splitChar, if_neg hc, hr]
      simpa [hcs] using ih

lemma splitChar_of_countChar_zero (sep : Char) (l : List Char)
    (h : countChar sep l = 0) : splitChar sep l = [l] := by
  induction l with
  | nil => simp [splitChar]
  | cons c cs ih =>
    simp only [countChar] at h
    by_cases hc : c = sep
    · simp [hc] at h
    · simp only [if_neg hc, Nat.zero_add] at h
      simp [splitChar, if_neg hc, ih h]

lemma getElem?_one_splitChar_of_countChar_one (sep : Char) (l : List Char)
    (h : countChar sep l = 1) :
    (splitChar sep l)[1]? = some (afterChar sep l) := by
  induction l with
  | nil => simp [countChar] at h
  | cons c cs ih =>
    simp only [countChar] at h
    by_cases hc : c = sep
    · simp only [if_pos hc] at h
      have h0 : countChar sep cs = 0 := by omega
      simp [splitChar, hc, afterChar, splitChar_of_countChar_zero sep cs h0]
    · simp only [if_neg hc, Nat.zero_add] at h
      obtain ⟨r, rs, hr⟩ := List.exists_cons_of_ne_nil (splitChar_ne_nil sep cs)
      have := ih h
      rw [hr] at this
      simp only [splitChar, if_neg hc, hr, afterChar]
      simpa [if_neg hc] using this

lemma transform_user_eq_none_iff (now : String) (user : RawUser) :
    transform_user now user = none ↔ '@' ∉ user.email.toList := by
  rw [← getElem?_one_splitChar_eq_none_iff '@' user.email.toList]
  unfold transform_user pySplit
  rw [List.getElem?_map]
  cases (splitChar '@' user.email.toList)[1]? <;> simp

lemma transform_users_eq_none_iff (now : String) (users : List RawUser) :
    transform_users now users = none ↔
      ∃ u ∈ users, transform_user now u = none := by
  induction users with
  | nil => simp [transform_users]
  | cons u rest ih =>
    simp only [transform_users]
    cases hu : transform_user now u with
    | none => simp [hu]
    | some t =>
      cases hr : transform_users now rest with
      | none =>
        rw [hr] at ih
        simp only [true_iff] at ih
        simp [ih]
      | some ts =>
        rw [hr] at ih
        simp only [reduceCtorEq, false_iff, not_exists] at ih
        simp only [reduceCtorEq, false_iff, not_exists]
        intro x hx
        obtain ⟨hmem, hnone⟩ := hx
        rcases List.mem_cons.mp hmem with h | h
        · subst h
          simp [hu] at hnone
        · exact ih x ⟨h, hnone⟩

lemma validate_step_total_records (vr : ValidationResults)
    (user : TransformedUser) :
    (validate_step vr user).total_records = vr.total_records := by
  simp only [validate_step]
  split <;> rfl

lemma validate_step_counts (vr : ValidationResults) (user : TransformedUser) :
    (validate_step vr user).valid_records +
      (validate_step vr user).invalid_records =
      vr.valid_records + vr.invalid_records + 1 := by
  simp only [validate_step]
  split <;> (dsimp only; omega)

lemma validate_foldl_counts :
    ∀ (users : List TransformedUser) (vr : ValidationResults),
      (users.foldl validate_step vr).valid_records +
          (users.foldl validate_step vr).invalid_records =
        vr.valid_records + vr.invalid_records + users.length
  | [], vr => by simp
  | u :: rest, vr => by
    simp only [List.foldl_cons, List.length_cons]
    rw [validate_foldl_counts rest (validate_step vr u), validate_step_counts]
    omega

lemma validate_foldl_total :
    ∀ (users : List TransformedUser) (vr : ValidationResults),
      (users.foldl validate_step vr).total_records = vr.total_records
  | [], _ => rfl
  | u :: rest, vr => by
    simp only [List.foldl_cons]
    rw [validate_foldl_total rest (validate_step vr u),
        validate_step_total_records]

lemma validate_foldl_state :
    ∀ (users : List TransformedUser) (td : TransformedData)
      (vr : ValidationResults),
      users.foldl (fun st user => (st.1, validate_step st.2 user)) (td, vr) =
        (td, users.foldl validate_step vr)
  | [], _, _ => rfl
  | u :: rest, td, vr => validate_foldl_state rest td (validate_step vr u)

/-! ### Claim theorems -/

/-- C1: on the built-in sample data the wired pipeline's Load summary does
report records_processed = 3, but the final notification value is NOT
"Notification sent successfully": line 149 passes `send_notification` a
single positional argument against a two-parameter signature, so the Notify
step raises TypeError (`none`) for every run. -/
theorem dag_run_sample (now : String) :
    dag_loading_summary now =
      some { records_processed := 3, load_timestamp := now,
             status := "completed" } ∧
    dag_run now = none ∧
    dag_run now ≠ some "Notification sent successfully" := by
  have h1 : dag_run now = none := rfl
  exact ⟨rfl, h1, by rw [h1]; simp⟩

/-- C2: the `send_notification` function itself returns the static
confirmation string for any two inputs, and a call supplying both the Load
summary and the Validate outcome succeeds; but the declared wiring
(line 149) supplies only the Load summary, and that one-argument call fails
(TypeError), so in the wired pipeline `send_notification` does NOT receive
both inputs. -/
theorem send_notification_call_shapes (ls : LoadingSummary)
    (vr : ValidationResults) :
    send_notification ls vr = "Notification sent successfully" ∧
    call_send_notification [NotifyArg.summary ls, NotifyArg.validation vr] =
      some "Notification sent successfully" ∧
    call_send_notification [NotifyArg.summary ls] = none :=
  ⟨rfl, rfl, rfl⟩

/-- C3 counterexample: for the raw record with email "a@b@c" — well-formed
in the claim's sense, since it contains an '@' — the code sets email_domain
to "b" (Python `split('@')[1]`, the segment between the first two '@'s),
which differs from the substring after the '@' character, "b@c". -/
theorem transform_domain_multiple_at_cex :
    '@' ∈ ("a@b@c" : String).toList ∧
    (transform_user "T" { id := 1, name := "x", email := "a@b@c" }).map
        TransformedUser.email_domain = some "b" ∧
    (transform_user "T" { id := 1, name := "x", email := "a@b@c" }).map
        TransformedUser.email_domain ≠
      some (substringAfter '@' "a@b@c") := by
  refine ⟨by decide, by decide, by decide⟩

/-- C3 amended: for every raw record whose email contains exactly one '@',
the transformed record has full_name equal to the uppercase of the input
name and email_domain equal to the substring of the email after the '@'
character. -/
theorem transform_domain_single_at (now : String) (user : RawUser)
    (h : countChar '@' user.email.toList = 1) :
    ∃ t, transform_user now user = some t ∧
      t.full_name = pyUpper user.name ∧
      t.email_domain = substringAfter '@' user.email := by
  have h2 := getElem?_one_splitChar_of_countChar_one '@' user.email.toList h
  unfold transform_user pySplit
  rw [List.getElem?_map, h2]
  exact ⟨_, rfl, rfl, rfl⟩

/-- C3 amended, witness: instantiated at the first sample record. -/
theorem transform_domain_single_at_witness :
    countChar '@' ("alice@example.com" : String).toList = 1 ∧
    ∃ t, transform_user "T"
        { id := 1, name := "Alice", email := "alice@example.com" } = some t ∧
      t.full_name = pyUpper "Alice" ∧
      t.email_domain = substringAfter '@' "alice@example.com" :=
  ⟨by decide,
   transform_domain_single_at "T"
     { id := 1, name := "Alice", email := "alice@example.com" } (by decide)⟩

/-- C4: the transform task fails (the IndexError from `split('@')[1]`,
modelled as `none`) iff some raw record's email lacks an '@' character.
Extract, Validate, Load and Notify are embedded as total functions — their
bodies contain no failing operation. -/
theorem transform_data_none_iff_missing_at (now : String)
    (raw_data : RawData) :
    transform_data now raw_data = none ↔
      ∃ u ∈ raw_data.users, '@' ∉ u.email.toList := by
  unfold transform_data
  constructor
  · intro h
    cases hu : transform_users now raw_data.users with
    | none =>
      obtain ⟨u, hmem, hnone⟩ :=
        (transform_users_eq_none_iff now raw_data.users).mp hu
      exact ⟨u, hmem, (transform_user_eq_none_iff now u).mp hnone⟩
    | some ts => rw [hu] at h; exact Option.noConfusion h
  · intro ⟨u, hmem, hat⟩
    have : transform_users now raw_data.users = none :=
      (transform_users_eq_none_iff now raw_data.users).mpr
        ⟨u, hmem, (transform_user_eq_none_iff now u).mpr hat⟩
    rw [this]

/-- C5: for every input, Validate's valid and invalid counters partition the
total, which is the length of the input collection. -/
theorem validate_counts_partition (transformed_data : TransformedData) :
    (validate_data transformed_data).valid_records +
        (validate_data transformed_data).invalid_records =
      (validate_data transformed_data).total_records ∧
    (validate_data transformed_data).total_records =
      transformed_data.transformed_users.length := by
  unfold validate_data
  constructor
  · rw [validate_foldl_counts, validate_foldl_total]
    simp
  · rw [validate_foldl_total]

/-- C6: for every transformed-data input, every timestamp and every pair of
validation results, Load reports records_processed equal to the input length
and the constant status "completed", and its summary does not depend on the
validation outcome at all — invalid records never gate loading. -/
theorem load_data_unconditional (now : String)
    (transformed_data : TransformedData) (vr vr2 : ValidationResults) :
    (load_data now transformed_data vr).records_processed =
      transformed_data.transformed_users.length ∧
    (load_data now transformed_data vr).status = "completed" ∧
    load_data now transformed_data vr = load_data now transformed_data vr2 :=
  ⟨rfl, rfl, rfl⟩

/-- C7: the three fixed sample records, passed through Transform, make
Validate report 3 valid, 0 invalid, and no error messages. -/
theorem validate_sample_records (now : String) :
    (transform_data now extract_data).map validate_data =
      some { total_records := 3, valid_records := 3, invalid_records := 0,
             validation_errors := [] } := rfl

/-- C8: Extract takes no inputs and returns exactly 3 records whose
identifiers are the set \x7b1, 2, 3\x7d. -/
theorem extract_data_shape :
    extract_data.users.length = 3 ∧
    extract_data.users.map RawUser.id = [1, 2, 3] ∧
    ∀ i : Int, i ∈ extract_data.users.map RawUser.id ↔
      (i = 1 ∨ i = 2 ∨ i = 3) := by
  refine ⟨rfl, rfl, fun i => ?_⟩
  simp [extract_data]

/-- C9: no task mutates its inputs.  In the state-passing translations of
Validate, Load and Notify the input objects come back unchanged, and the
result components agree with the direct (read-only) definitions: each task
only reads its inputs and returns freshly constructed data. -/
theorem tasks_leave_inputs_unchanged (now : String)
    (transformed_data : TransformedData) (vr : ValidationResults)
    (ls : LoadingSummary) :
    (validate_data_state transformed_data).1 = transformed_data ∧
    (validate_data_state transformed_data).2 = validate_data transformed_data ∧
    (load_data_state now transformed_data vr).1 = (transformed_data, vr) ∧
    (load_data_state now transformed_data vr).2.2 =
      load_data now transformed_data vr ∧
    (send_notification_state ls vr).1 = (ls, vr) ∧
    (send_notification_state ls vr).2.2 = send_notification ls vr := by
  refine ⟨?_, ?_, rfl, rfl, rfl, rfl⟩
  · unfold validate_data_state
    rw [validate_foldl_state]
  · unfold validate_data_state validate_data
    rw [validate_foldl_state]

/-- C10: Validate tests required fields by truthiness, not presence: a
record whose user_id is 0, or whose full_name or email_domain is the empty
string, is counted invalid and gets an error message appended, even though
every field is present (the transformed-record structure always carries all
four fields). -/
theorem validate_truthiness_invalid (vr : ValidationResults)
    (user : TransformedUser)
    (h : user.user_id = 0 ∨ user.full_name = "" ∨ user.email_domain = "") :
    (validate_step vr user).invalid_records = vr.invalid_records + 1 ∧
    (validate_step vr user).valid_records = vr.valid_records ∧
    vr.validation_errors.length <
      (validate_step vr user).validation_errors.length := by
  simp only [validate_step]
  cases hmr : (user.user_id == 0 || user.full_name == "") with
  | true =>
    cases hmd : (user.email_domain == "") <;>
      simp [hmr, hmd, List.length_append]
  | false =>
    cases hmd : (user.email_domain == "") with
    | true => simp [hmr, hmd, List.length_append]
    | false =>
      exfalso
      simp only [Bool.or_eq_false_iff, beq_eq_false_iff_ne, ne_eq] at hmr hmd
      rcases h with h | h | h
      · exact hmr.1 h
      · exact hmr.2 h
      · exact hmd h

/-- C10 witness: a record with user_id 0 (field present, value falsy) is
counted invalid and an error is appended. -/
theorem validate_truthiness_invalid_witness :
    ((0 : Int) = 0 ∨ ("A" : String) = "" ∨ ("d" : String) = "") ∧
    (validate_step
        { total_records := 1, valid_records := 0, invalid_records := 0,
          validation_errors := [] }
        { user_id := 0, full_name := "A", email_domain := "d",
          processed_at := "t" }).invalid_records = 0 + 1 ∧
    (validate_step
        { total_records := 1, valid_records := 0, invalid_records := 0,
          validation_errors := [] }
        { user_id := 0, full_name := "A", email_domain := "d",
          processed_at := "t" }).valid_records = 0 ∧
    ([] : List String).length <
      (validate_step
        { total_records := 1, valid_records := 0, invalid_records := 0,
          validation_errors := [] }
        { user_id := 0, full_name := "A", email_domain := "d",
          processed_at := "t" }).validation_errors.length :=
  ⟨Or.inl rfl,
   validate_truthiness_invalid
     { total_records := 1, valid_records := 0, invalid_records := 0,
       validation_errors := [] }
     { user_id := 0, full_name := "A", email_domain := "d",
       processed_at := "t" }
     (Or.inl rfl)⟩

end EtlDag
